import Mathlib

/-!
Verification of the nomoji emoji-stripping tool (src/main.rs).

Characters are Lean `Char` values: like Rust `char`, a `Char` is exactly a
Unicode scalar value, so `Char` faithfully models the code points the program
classifies. Text is a `List Char` (the sequence of code points of a string,
which is how the Rust code iterates: `input.chars()`).
-/

/-- Body of `is_emoji` (src/main.rs lines 36-80) on the extracted code point
`code = c as u32`: a disjunction of inclusive range checks and single-point
checks, in the source's order. -/
def emoji_code (code : Nat) : Bool :=
  (0x1F300 ≤ code && code ≤ 0x1F5FF)
    || (0x1F900 ≤ code && code ≤ 0x1F9FF)
    || (0x1F600 ≤ code && code ≤ 0x1F64F)
    || (0x1F680 ≤ code && code ≤ 0x1F6FF)
    || (0x2600 ≤ code && code ≤ 0x26FF)
    || (0x2700 ≤ code && code ≤ 0x27BF)
    || (0x1F100 ≤ code && code ≤ 0x1F1FF)
    || (0x1F200 ≤ code && code ≤ 0x1F2FF)
    || (0x1F780 ≤ code && code ≤ 0x1F7FF)
    || (0x1FA00 ≤ code && code ≤ 0x1FA6F)
    || (0x1FA70 ≤ code && code ≤ 0x1FAFF)
    || (0x1F1E6 ≤ code && code ≤ 0x1F1FF)
    || code == 0x20E3
    || code == 0x200D
    || (0xFE00 ≤ code && code ≤ 0xFE0F)
    || (0x1F3FB ≤ code && code ≤ 0x1F3FF)
    || ((0x231A ≤ code && code ≤ 0x231B) || (0x23E9 ≤ code && code ≤ 0x23EC)
      || code == 0x23F0 || code == 0x23F3
      || (0x25FD ≤ code && code ≤ 0x25FE) || (0x2614 ≤ code && code ≤ 0x2615)
      || (0x2648 ≤ code && code ≤ 0x2653) || code == 0x267F
      || code == 0x2693 || code == 0x26A1 || (0x26AA ≤ code && code ≤ 0x26AB)
      || (0x26BD ≤ code && code ≤ 0x26BE) || (0x26C4 ≤ code && code ≤ 0x26C5)
      || code == 0x26CE || code == 0x26D4 || code == 0x26EA
      || (0x26F2 ≤ code && code ≤ 0x26F3) || code == 0x26F5 || code == 0x26FA
      || code == 0x26FD || code == 0x2705 || code == 0x2728 || code == 0x274C
      || code == 0x274E || (0x2753 ≤ code && code ≤ 0x2755)
      || (0x2795 ≤ code && code ≤ 0x2797) || code == 0x27B0 || code == 0x27BF
      || code == 0x2B50 || code == 0x2B55 || code == 0x00A9 || code == 0x00AE
      || code == 0x2122 || code == 0x3030 || code == 0x303D)

/-- Embedding of `is_emoji` (src/main.rs lines 36-80): a pure classifier on a
single Unicode scalar value. -/
def is_emoji (c : Char) : Bool :=
  emoji_code c.toNat

/-- The loop of `remove_emojis` (src/main.rs lines 86-92): iterate the input
code points in order; an emoji increments the count, any other character is
pushed onto the end of the accumulated result string. -/
def remove_emojis_go (acc : List Char) (count : Nat) : List Char → List Char × Nat
  | [] => (acc, count)
  | c :: cs =>
    if is_emoji c then remove_emojis_go acc (count + 1) cs
    else remove_emojis_go (acc ++ [c]) count cs

/-- Embedding of `remove_emojis` (src/main.rs lines 82-95): returns the
reconstructed text and the number of removed characters. -/
def remove_emojis (input : List Char) : List Char × Nat :=
  remove_emojis_go [] 0 input

/-- The spec's designated emoji set (spec §4.1), written directly from the
table of ranges and enumerated points. Used to compare the implementation's
classifier against the spec's words. -/
def InDesignatedSet (n : Nat) : Prop :=
  (0x1F300 ≤ n ∧ n ≤ 0x1F5FF)
  ∨ (0x1F900 ≤ n ∧ n ≤ 0x1F9FF)
  ∨ (0x1F600 ≤ n ∧ n ≤ 0x1F64F)
  ∨ (0x1F680 ≤ n ∧ n ≤ 0x1F6FF)
  ∨ (0x2600 ≤ n ∧ n ≤ 0x26FF)
  ∨ (0x2700 ≤ n ∧ n ≤ 0x27BF)
  ∨ (0x1F100 ≤ n ∧ n ≤ 0x1F1FF)
  ∨ (0x1F200 ≤ n ∧ n ≤ 0x1F2FF)
  ∨ (0x1F780 ≤ n ∧ n ≤ 0x1F7FF)
  ∨ (0x1FA00 ≤ n ∧ n ≤ 0x1FA6F)
  ∨ (0x1FA70 ≤ n ∧ n ≤ 0x1FAFF)
  ∨ (0x1F1E6 ≤ n ∧ n ≤ 0x1F1FF)
  ∨ n = 0x20E3
  ∨ n = 0x200D
  ∨ (0xFE00 ≤ n ∧ n ≤ 0xFE0F)
  ∨ (0x1F3FB ≤ n ∧ n ≤ 0x1F3FF)
  ∨ (0x231A ≤ n ∧ n ≤ 0x231B) ∨ (0x23E9 ≤ n ∧ n ≤ 0x23EC)
  ∨ n = 0x23F0 ∨ n = 0x23F3
  ∨ (0x25FD ≤ n ∧ n ≤ 0x25FE) ∨ (0x2614 ≤ n ∧ n ≤ 0x2615)
  ∨ (0x2648 ≤ n ∧ n ≤ 0x2653) ∨ n = 0x267F
  ∨ n = 0x2693 ∨ n = 0x26A1 ∨ (0x26AA ≤ n ∧ n ≤ 0x26AB)
  ∨ (0x26BD ≤ n ∧ n ≤ 0x26BE) ∨ (0x26C4 ≤ n ∧ n ≤ 0x26C5)
  ∨ n = 0x26CE ∨ n = 0x26D4 ∨ n = 0x26EA
  ∨ (0x26F2 ≤ n ∧ n ≤ 0x26F3) ∨ n = 0x26F5 ∨ n = 0x26FA
  ∨ n = 0x26FD ∨ n = 0x2705 ∨ n = 0x2728 ∨ n = 0x274C
  ∨ n = 0x274E ∨ (0x2753 ≤ n ∧ n ≤ 0x2755)
  ∨ (0x2795 ≤ n ∧ n ≤ 0x2797) ∨ n = 0x27B0 ∨ n = 0x27BF
  ∨ n = 0x2B50 ∨ n = 0x2B55 ∨ n = 0x00A9 ∨ n = 0x00AE
  ∨ n = 0x2122 ∨ n = 0x3030 ∨ n = 0x303D

theorem remove_emojis_go_eq (cs : List Char) : ∀ acc count,
    remove_emojis_go acc count cs =
      (acc ++ cs.filter (fun c => !is_emoji c),
       count + cs.countP (fun c => is_emoji c)) := by
  induction cs with
  | nil => intro acc count; simp [remove_emojis_go]
  | cons c cs ih =>
    intro acc count
    by_cases h : is_emoji c
    · simp [remove_emojis_go, h, ih, List.countP_cons]
      omega
    · simp [remove_emojis_go, h, ih, List.countP_cons, List.filter_cons]

theorem remove_emojis_eq (s : List Char) :
    remove_emojis s =
      (s.filter (fun c => !is_emoji c), s.countP (fun c => is_emoji c)) := by
  simp [remove_emojis, remove_emojis_go_eq]

theorem length_filter_not_add_countP (s : List Char) :
    (s.filter (fun c => !is_emoji c)).length + s.countP (fun c => is_emoji c)
      = s.length := by
  induction s with
  | nil => simp
  | cons c cs ih =>
    rw [List.countP_cons, List.filter_cons]
    cases hc : is_emoji c
    · simp [hc]; omega
    · simp [hc]; omega

/-- C1: `remove_emojis` returns exactly the input with the classifier-positive
characters deleted and all other characters preserved in original relative
order (the output is the subsequence of classifier-negative characters),
together with a count equal to the number of deleted characters. -/
theorem remove_emojis_is_filter (s : List Char) :
    (remove_emojis s).1 = s.filter (fun c => !is_emoji c)
    ∧ (remove_emojis s).2 = s.countP (fun c => is_emoji c)
    ∧ List.Sublist (remove_emojis s).1 s
    ∧ (remove_emojis s).2 = s.length - (remove_emojis s).1.length := by
  have h := remove_emojis_eq s
  refine ⟨by rw [h], by rw [h], ?_, ?_⟩
  · rw [h]; exact List.filter_sublist s
  · rw [h]
    have hsum := length_filter_not_add_countP s
    simp only
    omega

set_option maxHeartbeats 2000000 in
theorem emoji_code_iff (n : Nat) : emoji_code n = true ↔ InDesignatedSet n := by
  simp only [emoji_code, InDesignatedSet, Bool.or_eq_true, Bool.and_eq_true,
    decide_eq_true_eq, beq_iff_eq]
  omega

/-- C2: the classifier is total on all Unicode scalar values and returns true
exactly on the designated set of spec §4.1. -/
theorem is_emoji_iff_designated (c : Char) :
    is_emoji c = true ↔ InDesignatedSet c.toNat := by
  rw [is_emoji]
  exact emoji_code_iff c.toNat

/-- C3: output length in code points plus removed count equals input length in
code points, for any input. -/
theorem remove_emojis_length_law (s : List Char) :
    (remove_emojis s).1.length + (remove_emojis s).2 = s.length := by
  rw [remove_emojis_eq]
  have hsum := length_filter_not_add_countP s
  simp only
  omega

/-- C4: the filter is idempotent — filtering already-filtered text returns the
same text with zero additional removals. -/
theorem remove_emojis_idempotent (s : List Char) :
    remove_emojis (remove_emojis s).1 = ((remove_emojis s).1, 0) := by
  rw [remove_emojis_eq s]
  rw [remove_emojis_eq]
  refine Prod.ext ?_ ?_
  · simp only
    rw [List.filter_filter]
    simp
  · simp only
    rw [List.countP_eq_zero]
    intro a ha
    have := List.of_mem_filter ha
    simpa using this

/-!
Orchestration model. File I/O and the standard streams are modelled by an
explicit world state (a disk mapping paths to contents plus the bytes written
to standard output) together with an error-injection environment that says
which operating-system calls fail and with what message, mirroring the
`io::Result` values the Rust code branches on.
-/

/-- Embedding of the parsed command line `Args` (src/main.rs lines 6-26). -/
structure Args where
  files : List String
  backup : Bool
  inplace : Bool
  dry_run : Bool

/-- Embedding of `ProcessResult` (src/main.rs lines 28-34). -/
structure ProcessResult where
  file : String
  emojis_found : Nat
  success : Bool
  error : Option String

/-- Which system calls fail, and with what error message; `none` means the
call succeeds. Models the `io::Result` errors the code branches on. -/
structure Errs where
  readErr : String → Option String
  copyErr : String → Option String
  writeErr : String → Option String
  stdoutErr : Option String

/-- The observable world: file contents by path, and the text written so far
to standard output. -/
structure World where
  disk : String → Option (List Char)
  out : List Char

/-- Embedding of `read_input` (src/main.rs lines 97-99): read the whole file
as text; fails with an injected error or when the file does not exist. -/
def read_input (file : String) (e : Errs) (w : World) :
    Except String (List Char) :=
  match e.readErr file with
  | some msg => .error msg
  | none =>
    match w.disk file with
    | some content => .ok content
    | none => .error "No such file or directory"

/-- Embedding of `write_output` (src/main.rs lines 101-103): overwrite the
file with the given content, or fail with an injected error (in which case the
disk is unchanged). -/
def write_output (file : String) (content : List Char) (e : Errs) (w : World) :
    Except String World :=
  match e.writeErr file with
  | some msg => .error msg
  | none =>
    .ok { w with disk := fun p => if p = file then some content else w.disk p }

/-- Model of `fs::copy` (src/main.rs line 120): copy the source file's
contents to the destination path, or fail with an injected error (in which
case the disk is unchanged). -/
def copy_file (src dst : String) (e : Errs) (w : World) : Except String World :=
  match e.copyErr src with
  | some msg => .error msg
  | none =>
    .ok { w with disk := fun p => if p = dst then w.disk src else w.disk p }

/-- Embedding of `process_file` (src/main.rs lines 105-187): read the source,
filter it, then dispatch on dry-run / backup / in-place / stdout exactly as
the source does, producing a `ProcessResult` and the new world. -/
def process_file (file : String) (args : Args) (e : Errs) (w : World) :
    ProcessResult × World :=
  match read_input file e w with
  | .error msg =>
    ({ file := file, emojis_found := 0, success := false,
       error := some ("Failed to read file: " ++ msg) }, w)
  | .ok content =>
    if args.dry_run then
      ({ file := file, emojis_found := (remove_emojis content).2,
         success := true, error := none }, w)
    else if args.backup then
      match copy_file file (file ++ ".bak") e w with
      | .error msg =>
        ({ file := file, emojis_found := (remove_emojis content).2,
           success := false,
           error := some ("Failed to create backup: " ++ msg) }, w)
      | .ok w1 =>
        match write_output file (remove_emojis content).1 e w1 with
        | .ok w2 =>
          ({ file := file, emojis_found := (remove_emojis content).2,
             success := true, error := none }, w2)
        | .error msg =>
          ({ file := file, emojis_found := (remove_emojis content).2,
             success := false,
             error := some ("Failed to write file: " ++ msg) }, w1)
    else if args.inplace then
      match write_output file (remove_emojis content).1 e w with
      | .ok w1 =>
        ({ file := file, emojis_found := (remove_emojis content).2,
           success := true, error := none }, w1)
      | .error msg =>
        ({ file := file, emojis_found := (remove_emojis content).2,
           success := false,
           error := some ("Failed to write file: " ++ msg) }, w)
    else
      match e.stdoutErr with
      | some msg =>
        ({ file := file, emojis_found := (remove_emojis content).2,
           success := false,
           error := some ("Failed to write to stdout: " ++ msg) }, w)
      | none =>
        ({ file := file, emojis_found := (remove_emojis content).2,
           success := true, error := none },
         { w with out := w.out ++ (remove_emojis content).1 })

/-- Embedding of `process_stdin` (src/main.rs lines 189-198): read all of
standard input, filter it, write the result to standard output; both the read
and the write propagate their errors. -/
def process_stdin (stdinText : List Char) (stdinErr : Option String) (e : Errs)
    (w : World) : Except String Nat × World :=
  match stdinErr with
  | some msg => (.error msg, w)
  | none =>
    match e.stdoutErr with
    | some msg => (.error msg, w)
    | none =>
      (.ok (remove_emojis stdinText).2,
       { w with out := w.out ++ (remove_emojis stdinText).1 })

/-- Total removed-character count shown by `print_report` (src/main.rs line
203): the sum of `emojis_found` over all per-source results. -/
def report_total_emojis (results : List ProcessResult) : Nat :=
  (results.map (fun r => r.emojis_found)).sum

/-- The batch loop of `main` (src/main.rs lines 248-253): process each named
source in order, threading the world, collecting one result per source. -/
def batch_run (files : List String) (args : Args) (e : Errs) (w : World) :
    List ProcessResult × World :=
  match files with
  | [] => ([], w)
  | f :: fs =>
    let pr := process_file f args e w
    let rest := batch_run fs args e pr.2
    (pr.1 :: rest.1, rest.2)

/-- The stdin-mode condition of `main` (src/main.rs line 234):
`args.files.is_empty() || (args.files.len() == 1 && args.files[0] == "-")`. -/
def stdin_mode (files : List String) : Bool :=
  files.isEmpty || (files.length == 1 && files.headD "" == "-")

/-- Embedding of `main` (src/main.rs lines 230-262) after argument parsing:
dispatch to stdin mode or to the batch loop, and compute the process exit
code (0 on success, 1 on any failure). -/
def main_run (args : Args) (stdinText : List Char) (stdinErr : Option String)
    (e : Errs) (w : World) : Nat × World :=
  if stdin_mode args.files then
    match process_stdin stdinText stdinErr e w with
    | (.ok _, w1) => (0, w1)
    | (.error _, w1) => (1, w1)
  else
    let br := batch_run args.files args e w
    if (br.1.filter (fun r => !r.success)).length > 0 then (1, br.2)
    else (0, br.2)

theorem process_file_file (file : String) (args : Args) (e : Errs) (w : World) :
    (process_file file args e w).1.file = file := by
  unfold process_file
  repeat' split
  all_goals rfl

theorem batch_run_files (files : List String) (args : Args) (e : Errs)
    (w : World) :
    (batch_run files args e w).1.map (fun r => r.file) = files := by
  induction files generalizing w with
  | nil => rfl
  | cons f fs ih =>
    simp [batch_run, process_file_file, ih]

/-- C5: standard-input mode is entered exactly when the positional argument
list is empty or is the single argument "-"; in every other case, the batch
loop processes each argument as a named source, producing one result per
argument in the given order. -/
theorem stdin_mode_characterization (args : Args) (e : Errs) (w : World) :
    (stdin_mode args.files = true ↔ args.files = [] ∨ args.files = ["-"])
    ∧ (batch_run args.files args e w).1.map (fun r => r.file) = args.files := by
  refine ⟨?_, batch_run_files args.files args e w⟩
  rcases hf : args.files with _ | ⟨a, _ | ⟨b, bs⟩⟩
  · simp [stdin_mode]
  · simp [stdin_mode]
  · simp [stdin_mode]

/-- C7: when `--backup` is set and the copy to `<source>.bak` fails, that
source's processing aborts without writing anywhere (the world, hence the
source file's contents, is unchanged), the result records a failure with an
error carrying the computed count, and the batch continues with the
remaining sources. -/
theorem backup_copy_failure (file : String) (args : Args) (e : Errs)
    (w : World) (content : List Char) (msg : String) (rest : List String)
    (hread : read_input file e w = .ok content)
    (hdry : args.dry_run = false)
    (hb : args.backup = true)
    (hcopy : e.copyErr file = some msg) :
    (process_file file args e w).2 = w
    ∧ (process_file file args e w).1.success = false
    ∧ (process_file file args e w).1.error
        = some ("Failed to create backup: " ++ msg)
    ∧ (process_file file args e w).1.emojis_found = (remove_emojis content).2
    ∧ (batch_run (file :: rest) args e w).1
        = (process_file file args e w).1 :: (batch_run rest args e w).1 := by
  have hpf : process_file file args e w
      = ({ file := file, emojis_found := (remove_emojis content).2,
           success := false,
           error := some ("Failed to create backup: " ++ msg) }, w) := by
    unfold process_file copy_file
    rw [hread, hcopy]
    simp [hdry, hb]
  refine ⟨?_, ?_, ?_, ?_, ?_⟩ <;> simp [batch_run, hpf]

/-- C8: in dry-run mode a readable source is only filtered and counted: the
world (disk and standard output) is unchanged, the result is a success with
no error, and it reports the filter's removal count — regardless of the
`--backup` and `--inplace` flags. -/
theorem dry_run_frame (file : String) (args : Args) (e : Errs) (w : World)
    (content : List Char)
    (hread : read_input file e w = .ok content)
    (hdry : args.dry_run = true) :
    (process_file file args e w).2 = w
    ∧ (process_file file args e w).1.success = true
    ∧ (process_file file args e w).1.error = none
    ∧ (process_file file args e w).1.emojis_found
        = content.countP (fun c => is_emoji c) := by
  have hpf : process_file file args e w
      = ({ file := file, emojis_found := (remove_emojis content).2,
           success := true, error := none }, w) := by
    unfold process_file
    rw [hread]
    simp [hdry]
  refine ⟨?_, ?_, ?_, ?_⟩ <;> simp [hpf, remove_emojis_eq]

/-- C9: outside dry-run mode, with the relevant system calls succeeding: with
`--backup` set the source is overwritten in place after the backup copy (even
if `--inplace` is unset) and nothing goes to standard output; with only
`--inplace` set the source is overwritten in place and nothing goes to
standard output; with neither flag the filtered text goes to standard output
and the disk is untouched. -/
theorem write_destinations (file : String) (args : Args) (e : Errs)
    (w : World) (content : List Char)
    (hread : read_input file e w = .ok content)
    (hdry : args.dry_run = false)
    (hcopy : e.copyErr file = none)
    (hwrite : e.writeErr file = none)
    (hstdout : e.stdoutErr = none) :
    (args.backup = true →
      (process_file file args e w).2.disk file = some (remove_emojis content).1
      ∧ (process_file file args e w).2.disk (file ++ ".bak") = w.disk file
      ∧ (process_file file args e w).2.out = w.out)
    ∧ (args.backup = false → args.inplace = true →
      (process_file file args e w).2.disk file = some (remove_emojis content).1
      ∧ (process_file file args e w).2.out = w.out)
    ∧ (args.backup = false → args.inplace = false →
      (process_file file args e w).2.disk = w.disk
      ∧ (process_file file args e w).2.out
          = w.out ++ (remove_emojis content).1) := by
  have hne : file ++ ".bak" ≠ file := by
    intro h
    have hlen := congrArg String.length h
    rw [String.length_append] at hlen
    have h4 : String.length ".bak" = 4 := rfl
    rw [h4] at hlen
    omega
  refine ⟨fun hb => ?_, fun hb hi => ?_, fun hb hi => ?_⟩
  · have hpf : (process_file file args e w).2
        = { w with disk := fun p =>
              if p = file then some (remove_emojis content).1
              else if p = file ++ ".bak" then w.disk file else w.disk p } := by
      unfold process_file copy_file write_output
      rw [hread, hcopy, hwrite]
      simp [hdry, hb]
    refine ⟨?_, ?_, ?_⟩ <;> simp [hpf, hne]
  · have hpf : (process_file file args e w).2
        = { w with disk := fun p =>
              if p = file then some (remove_emojis content).1
              else w.disk p } := by
      unfold process_file write_output
      rw [hread, hwrite]
      simp [hdry, hb, hi]
    refine ⟨?_, ?_⟩ <;> simp [hpf]
  · have hpf : (process_file file args e w).2
        = { w with out := w.out ++ (remove_emojis content).1 } := by
      unfold process_file
      rw [hread, hstdout]
      simp [hdry, hb, hi]
    refine ⟨?_, ?_⟩ <;> simp [hpf]

/-- C10: the per-source result carries the filter's removal count whenever
the source was read successfully — also when the backup copy or the
destination write then fails — and carries 0 when the read failed; the
report's total is the sum over all results, failed sources included. -/
theorem count_carried (file : String) (args : Args) (e : Errs) (w : World) :
    (∀ content, read_input file e w = .ok content →
      (process_file file args e w).1.emojis_found = (remove_emojis content).2)
    ∧ (∀ msg, read_input file e w = .error msg →
      (process_file file args e w).1.emojis_found = 0)
    ∧ (∀ results : List ProcessResult,
      report_total_emojis results
        = report_total_emojis (results.filter (fun r => r.success))
          + report_total_emojis (results.filter (fun r => !r.success))) := by
  refine ⟨?_, ?_, ?_⟩
  · intro content h
    unfold process_file
    rw [h]
    repeat' split
    all_goals simp_all
  · intro msg h
    unfold process_file
    rw [h]
  · intro results
    induction results with
    | nil => simp [report_total_emojis]
    | cons r rs ih =>
      cases hr : r.success <;>
        simp [report_total_emojis, List.filter_cons, hr] at ih ⊢ <;> omega

/-- An error environment in which every system call succeeds. -/
def noFailErrs : Errs :=
  { readErr := fun _ => none, copyErr := fun _ => none,
    writeErr := fun _ => none, stdoutErr := none }

/-- An error environment in which only writing to standard output fails. -/
def stdoutFailErrs : Errs :=
  { readErr := fun _ => none, copyErr := fun _ => none,
    writeErr := fun _ => none, stdoutErr := some "broken pipe" }

/-- An error environment in which only the backup copy of "a.txt" fails. -/
def copyFailErrs : Errs :=
  { readErr := fun _ => none,
    copyErr := fun p => if p = "a.txt" then some "permission denied" else none,
    writeErr := fun _ => none, stdoutErr := none }

/-- A three-character sample text whose last character is U+1F600, an emoji. -/
def sampleText : List Char := ['h', 'i', Char.ofNat 0x1F600]

/-- A world holding one file "a.txt" with `sampleText` as contents. -/
def worldA : World :=
  { disk := fun p => if p = "a.txt" then some sampleText else none, out := [] }

/-- An empty world: no files, nothing written to standard output. -/
def emptyWorld : World := { disk := fun _ => none, out := [] }

/-- C6 counterexample: in standard-input mode (no positional arguments, so
every named source vacuously succeeded) with the stdin read succeeding
(`none` read error), the exit code is nevertheless 1, because the write to
standard output failed — refuting that the exit code is 0 whenever every
named source succeeded, and that, in standard-input mode, only a failed read
of standard input yields exit code 1. -/
theorem exit_code_stdout_counterexample :
    (main_run ⟨[], false, false, false⟩ [] none stdoutFailErrs emptyWorld).1 = 1
    ∧ (⟨[], false, false, false⟩ : Args).files = []
    ∧ (none : Option String) = none := by
  exact ⟨rfl, rfl, rfl⟩

/-- C6 amended: in batch mode the exit code is 0 iff every named source's
result records success; in standard-input mode the exit code is 0 iff both
reading standard input and writing the filtered text to standard output
succeed (so a failed stdout write also yields exit code 1). -/
theorem exit_code_amended (args : Args) (stdinText : List Char)
    (stdinErr : Option String) (e : Errs) (w : World) :
    (stdin_mode args.files = true →
      ((main_run args stdinText stdinErr e w).1 = 0
        ↔ stdinErr = none ∧ e.stdoutErr = none))
    ∧ (stdin_mode args.files = false →
      ((main_run args stdinText stdinErr e w).1 = 0
        ↔ ∀ r ∈ (batch_run args.files args e w).1, r.success = true)) := by
  constructor
  · intro h
    cases hs : stdinErr with
    | some msg => simp [main_run, h, process_stdin, hs]
    | none =>
      cases ho : e.stdoutErr with
      | some msg => simp [main_run, h, process_stdin, hs, ho]
      | none => simp [main_run, h, process_stdin, hs, ho]
  · intro h
    simp only [main_run, h, Bool.false_eq_true, if_false]
    rcases Nat.eq_zero_or_pos
        ((batch_run args.files args e w).1.filter (fun r => !r.success)).length
      with hz | hp
    · rw [if_neg (by omega)]
      constructor
      · intro _ r hr
        rw [List.length_eq_zero] at hz
        by_contra hrs
        have hfalse : r.success = false := by
          cases hb : r.success
          · rfl
          · exact absurd hb hrs
        have hmem : r ∈ (batch_run args.files args e w).1.filter
            (fun r => !r.success) := by
          rw [List.mem_filter]
          exact ⟨hr, by simp [hfalse]⟩
        rw [hz] at hmem
        simp at hmem
      · intro _
        rfl
    · rw [if_pos (by omega)]
      simp only
      constructor
      · intro h0
        exact absurd h0 one_ne_zero
      · intro hall
        obtain ⟨r, hrmem⟩ := List.exists_mem_of_length_pos hp
        rw [List.mem_filter] at hrmem
        have hs := hall r hrmem.1
        rw [hs] at hrmem
        simp at hrmem

/-- C6 witness: a successful standard-input run exits with code 0. -/
theorem exit_code_amended_witness :
    (main_run ⟨[], false, false, false⟩ [] none noFailErrs emptyWorld).1 = 0 :=
  ((exit_code_amended ⟨[], false, false, false⟩ [] none noFailErrs
      emptyWorld).1 rfl).mpr ⟨rfl, rfl⟩

/-- C7 witness: a concrete run in which reading "a.txt" succeeds, the backup
copy fails, the world is untouched, the failure is recorded with the computed
count, and the batch continues with "b.txt". -/
theorem backup_copy_failure_witness :
    (process_file "a.txt" ⟨["a.txt"], true, false, false⟩ copyFailErrs
        worldA).2 = worldA
    ∧ (process_file "a.txt" ⟨["a.txt"], true, false, false⟩ copyFailErrs
        worldA).1.success = false
    ∧ (process_file "a.txt" ⟨["a.txt"], true, false, false⟩ copyFailErrs
        worldA).1.error
        = some ("Failed to create backup: " ++ "permission denied")
    ∧ (process_file "a.txt" ⟨["a.txt"], true, false, false⟩ copyFailErrs
        worldA).1.emojis_found = (remove_emojis sampleText).2
    ∧ (batch_run ("a.txt" :: ["b.txt"]) ⟨["a.txt"], true, false, false⟩
        copyFailErrs worldA).1
        = (process_file "a.txt" ⟨["a.txt"], true, false, false⟩ copyFailErrs
            worldA).1
          :: (batch_run ["b.txt"] ⟨["a.txt"], true, false, false⟩ copyFailErrs
              worldA).1 :=
  backup_copy_failure "a.txt" ⟨["a.txt"], true, false, false⟩ copyFailErrs
    worldA sampleText "permission denied" ["b.txt"] rfl rfl rfl rfl

/-- C8 witness: a concrete dry run over "a.txt", whose contents hold exactly
one emoji code point, leaves the world untouched and reports count 1 with
success, even with backup and in-place both requested. -/
theorem dry_run_frame_witness :
    ((process_file "a.txt" ⟨["a.txt"], true, true, true⟩ noFailErrs
        worldA).2 = worldA
      ∧ (process_file "a.txt" ⟨["a.txt"], true, true, true⟩ noFailErrs
          worldA).1.success = true
      ∧ (process_file "a.txt" ⟨["a.txt"], true, true, true⟩ noFailErrs
          worldA).1.error = none
      ∧ (process_file "a.txt" ⟨["a.txt"], true, true, true⟩ noFailErrs
          worldA).1.emojis_found = sampleText.countP (fun c => is_emoji c))
    ∧ sampleText.countP (fun c => is_emoji c) = 1 :=
  ⟨dry_run_frame "a.txt" ⟨["a.txt"], true, true, true⟩ noFailErrs worldA
      sampleText rfl rfl,
   by decide⟩

/-- C9 witness: a concrete backup-mode run (without `--inplace`) overwrites
"a.txt" with the filtered text, leaves the original in "a.txt.bak", and
writes nothing to standard output. -/
theorem write_destinations_witness :
    (process_file "a.txt" ⟨["a.txt"], true, false, false⟩ noFailErrs
        worldA).2.disk "a.txt" = some (remove_emojis sampleText).1
    ∧ (process_file "a.txt" ⟨["a.txt"], true, false, false⟩ noFailErrs
        worldA).2.disk ("a.txt" ++ ".bak") = worldA.disk "a.txt"
    ∧ (process_file "a.txt" ⟨["a.txt"], true, false, false⟩ noFailErrs
        worldA).2.out = worldA.out :=
  (write_destinations "a.txt" ⟨["a.txt"], true, false, false⟩ noFailErrs
      worldA sampleText rfl rfl rfl rfl rfl).1 rfl

/-- C10 witness: a concrete run whose backup copy fails still reports the
filter's computed removal count in its failed result. -/
theorem count_carried_witness :
    (process_file "a.txt" ⟨["a.txt"], true, false, false⟩ copyFailErrs
        worldA).1.emojis_found = (remove_emojis sampleText).2 :=
  (count_carried "a.txt" ⟨["a.txt"], true, false, false⟩ copyFailErrs
      worldA).1 sampleText rfl
